import Mathlib

/-!
Verification of the resilient bulk-ingestion pipeline of
`data-ingestion/ingest-properties.py` (Elastic-Python-MCP-Server).

The embedding models the pipeline's pure decision logic and its externally
visible actions.  Interactions with the backend (document counts returned by
count queries, per-document bulk outcomes, task-poll statuses, raised bulk
exceptions) are inputs supplied by an environment record; the functions below
translate, statement by statement, the control flow of the Python source and
emit a trace of observable events (index recreation, waits, count queries,
failure-report file writes, backoff sleeps).  Concurrency inside
`parallel_bulk` is abstracted: the generator is modelled as fully consumed and
the per-document outcomes are delivered as a list, which preserves every
count- and content-level fact the source's sequential accounting depends on.
-/

namespace Ingest

/-- A decoded JSON document, abstracted to an opaque payload identifier. -/
abbrev Doc := Nat

/-- One line of the in-memory buffer `data_lines`: `decoded = some d` when
`json.loads` succeeds with document `d`, `none` when it raises
`JSONDecodeError`; `text` is the raw line content. -/
structure Line where
  decoded : Option Doc
  text : String
deriving DecidableEq, Repr

/-- One raw line of the streamed HTTP body as produced by `iter_lines()`:
either an empty line (skipped by the `if line:` guard) or content that
decodes, or fails to decode, as JSON. -/
inductive RawLine
  | empty
  | content (decoded : Option Doc) (text : String)
deriving DecidableEq, Repr

/-- Materialization step of `retry_ingestion_with_instruqt_logic`
(lines 453-456): keep each non-empty line of the response body. -/
def materializeLines : List RawLine → List Line
  | [] => []
  | .empty :: rest => materializeLines rest
  | .content d t :: rest => ⟨d, t⟩ :: materializeLines rest

/-- Line-number field of a failure record: a concrete source line number or
the string `"unknown"`. -/
inductive LineRef
  | num (n : Nat)
  | unknown
deriving DecidableEq, Repr

/-- A failure record, as appended to `failed_docs`.  Decode errors
(lines 335-339) carry a line number and the truncated raw line; bulk
submission errors (lines 357-362 and 427-432) carry error type, error
reason, document id and whatever line reference the extraction found. -/
inductive FailureRecord
  | decodeError (line_number : Nat) (raw_line : String)
  | bulkError (error_type error_reason doc_id : String) (line_number : LineRef)
deriving DecidableEq, Repr

/-- The line-number field of a failure record. -/
def FailureRecord.lineRef : FailureRecord → LineRef
  | .decodeError n _ => .num n
  | .bulkError _ _ _ r => r

/-- Truncation of the raw line stored in a decode-failure record
(line 338): `line[:200] + "..."` when the line exceeds 200 characters. -/
def truncateRaw (s : String) : String :=
  if s.length > 200 then (s.take 200).append "..." else s

/-- A bulk action yielded by the generators: destination index, document and
the `_line_number` metadata attached for error reporting. -/
structure BulkAction where
  index : String
  source : Doc
  line_number : Nat
deriving DecidableEq, Repr

/-- Result of running a generator to exhaustion: the submitted actions, the
decode-failure records appended to `failed_docs`, and `doc_count`. -/
structure GenResult where
  actions : List BulkAction
  decodeFailures : List FailureRecord
  docCount : Nat
deriving DecidableEq, Repr

/-- Translation of `generate_actions_from_memory` (lines 320-340): enumerate `data_lines`
from 1; a decodable line yields an action carrying its line number and
increments `doc_count`; a decode failure appends one record to `failed_docs`
and the iteration continues with the next line. -/
def generate_actions_from_memory (indexName : String) : List Line → Nat → GenResult
  | [], _ => ⟨[], [], 0⟩
  | l :: rest, n =>
    match l.decoded with
    | some d =>
      let r := generate_actions_from_memory indexName rest (n + 1)
      ⟨⟨indexName, d, n⟩ :: r.actions, r.decodeFailures, r.docCount + 1⟩
    | none =>
      let r := generate_actions_from_memory indexName rest (n + 1)
      ⟨r.actions, .decodeError n (truncateRaw l.text) :: r.decodeFailures, r.docCount⟩

/-- Translation of `generate_actions` of `download_and_parallel_bulk_load` (lines 226-242):
enumerate the streamed lines from 1, skip empty lines, yield an action per
decodable line; a decode failure is only printed -- nothing is recorded --
and iteration continues.  Returns the actions and `doc_count`. -/
def generate_actions_stream (indexName : String) : List RawLine → Nat → List BulkAction × Nat
  | [], _ => ([], 0)
  | .empty :: rest, n => generate_actions_stream indexName rest (n + 1)
  | .content dec _ :: rest, n =>
    let r := generate_actions_stream indexName rest (n + 1)
    match dec with
    | some d => (⟨indexName, d, n⟩ :: r.1, r.2 + 1)
    | none => r

/-- Translation of `get_expected_document_count` (lines 96-103). -/
def get_expected_document_count (use_small_dataset use_tiny_dataset : Bool) : Nat :=
  if use_tiny_dataset then 500
  else if use_small_dataset then 5000
  else 48966

/-- The command-line flags that drive the pipeline's control flow. -/
structure Args where
  instruqt : Bool
  ingest_raw_500_dataset : Bool
  instruqt_reindex_with_endpoints : Bool
  use_small_5k_dataset : Bool
  use_500_dataset : Bool
deriving DecidableEq, Repr

/-- The flag combination `args.instruqt or args.ingest_raw_500_dataset or
args.instruqt_reindex_with_endpoints` used throughout
`bulk_load_from_memory` (lines 318, 391, 398, 405). -/
def constrainedMode (a : Args) : Bool :=
  a.instruqt || a.ingest_raw_500_dataset || a.instruqt_reindex_with_endpoints

/-- Expected count used by `bulk_load_from_memory` (lines 397-401): 500 in
the constrained modes, else the dataset variant's declared count. -/
def expected_count_memory (a : Args) : Nat :=
  if constrainedMode a then 500
  else get_expected_document_count a.use_small_5k_dataset a.use_500_dataset

/-- Expected count used by `download_and_parallel_bulk_load`
(lines 297-301): 500 for Instruqt or raw-dataset mode, else the variant's
declared count. -/
def expected_count_stream (a : Args) : Nat :=
  if a.instruqt || a.ingest_raw_500_dataset then 500
  else get_expected_document_count a.use_small_5k_dataset a.use_500_dataset

/-- One item of the backend's bulk response for a failed document, as read by
the extraction code at lines 357-362: the fields looked up there, each
possibly absent.  `lineNumber` is present only if the response item itself
carries a `_line_number` field. -/
structure BulkErrorItem where
  errorType : Option String
  errorReason : Option String
  docId : Option String
  lineNumber : Option Nat
deriving DecidableEq, Repr

/-- Extraction of a failure record from an `ok = False` bulk result
(lines 357-362): each field is looked up in the response item with default
`"unknown"`; in particular the line number is taken from the response item,
not from the submitted action. -/
def extract_error_info (item : BulkErrorItem) : FailureRecord :=
  .bulkError (item.errorType.getD "unknown") (item.errorReason.getD "unknown")
    (item.docId.getD "unknown")
    (match item.lineNumber with
     | some n => .num n
     | none => .unknown)

/-- One entry of a `BulkIndexError`'s error list: whether the entry is keyed
by the `index` op type, and the item under that key. -/
structure BulkIndexErrorEntry where
  isIndexOp : Bool
  item : BulkErrorItem
deriving DecidableEq, Repr

/-- Extraction of failure records from a caught `BulkIndexError`
(lines 424-433): entries keyed by `index` yield a record whose line number is
always the literal `"unknown"` (line 431 -- the source comments that the line
number cannot be recovered from a `BulkIndexError`). -/
def extract_bulk_index_error (errors : List BulkIndexErrorEntry) : List FailureRecord :=
  errors.filterMap fun e =>
    if e.isIndexOp then
      some (.bulkError (e.item.errorType.getD "unknown") (e.item.errorReason.getD "unknown")
        (e.item.docId.getD "unknown") .unknown)
    else none

/-- Observable actions of one pipeline run. -/
inductive Event
  | download (url : String)
  | recreateIndex
  | loadFromMemory (lines : List Line)
  | settleWait (secs : Nat)
  | countQuery (result : Nat)
  | recheckWait (secs : Nat)
  | writeFailureFile (records : List FailureRecord)
  | backoff (secs : Nat)
deriving DecidableEq, Repr

/-- Backend behaviour seen by one `bulk_load_from_memory` call:
`bulkException = some errs` models `parallel_bulk` raising a
`BulkIndexError` carrying `errs`; otherwise `bulkFailures` are the
`ok = False` results delivered through the loop, `firstCount` is the count
query's first reading and `recheckCount` the reading after the extra wait,
should one be performed. -/
structure LoadEnv where
  bulkException : Option (List BulkIndexErrorEntry)
  bulkFailures : List BulkErrorItem
  firstCount : Nat
  recheckCount : Nat
deriving DecidableEq, Repr

/-- Result of one `bulk_load_from_memory` call: its observable events, the
returned success flag and the returned `failed_docs`. -/
structure LoadResult where
  events : List Event
  success : Bool
  failedDocs : List FailureRecord
deriving DecidableEq, Repr

/-- Translation of `bulk_load_from_memory` (lines 310-443).  The generator's decode-failure
records and the loop's `ok = False` records accumulate into `failed_docs`
(the concurrent interleaving of the two kinds is abstracted to
concatenation).  When `error_count > 0` and the reindex-with-endpoints flag
is set, `failed_documents.json` is written (lines 383-388).  Constrained
modes wait 30 seconds before counting (lines 391-393); a first reading at
least 400 and below the expected count triggers one 20-second wait and one
re-read (lines 404-410).  Success is the final reading being exactly the
expected count (lines 412-417).  A `BulkIndexError` is caught (lines
419-443): its records are appended, the file is written under the reindex
flag, and the call returns failure without any count query. -/
def bulk_load_from_memory (a : Args) (indexName : String) (data_lines : List Line)
    (env : LoadEnv) : LoadResult :=
  let gen := generate_actions_from_memory indexName data_lines 1
  match env.bulkException with
  | some errs =>
    let failed := gen.decodeFailures ++ extract_bulk_index_error errs
    let evs := if a.instruqt_reindex_with_endpoints then [Event.writeFailureFile failed] else []
    ⟨Event.loadFromMemory data_lines :: evs, false, failed⟩
  | none =>
    let failed := gen.decodeFailures ++ env.bulkFailures.map extract_error_info
    let errorCount := env.bulkFailures.length
    let reportEvs :=
      if errorCount > 0 ∧ a.instruqt_reindex_with_endpoints = true then
        [Event.writeFailureFile failed]
      else []
    let settleEvs := if constrainedMode a then [Event.settleWait 30] else []
    let expected := expected_count_memory a
    let recheck : List Event × Nat :=
      if constrainedMode a = true ∧ 400 ≤ env.firstCount ∧ env.firstCount < expected then
        ([Event.recheckWait 20, Event.countQuery env.recheckCount], env.recheckCount)
      else ([], env.firstCount)
    ⟨Event.loadFromMemory data_lines ::
        (reportEvs ++ settleEvs ++ [Event.countQuery env.firstCount] ++ recheck.1),
      recheck.2 == expected, failed⟩

/-- Backend behaviour seen by one `download_and_parallel_bulk_load` call:
the `ok = False` results of the loop and the single count reading. -/
structure StreamEnv where
  bulkFailures : List BulkErrorItem
  finalCount : Nat
deriving DecidableEq, Repr

/-- Decision logic of `download_and_parallel_bulk_load` (lines 217-308):
failure records come only from `ok = False` bulk results (decode errors are
printed, never recorded); the call succeeds exactly when the single count
reading equals the expected count, independently of the error count. -/
def download_and_parallel_bulk_load (a : Args) (indexName : String)
    (streamLines : List RawLine) (env : StreamEnv) : Bool × List FailureRecord :=
  let gen := generate_actions_stream indexName streamLines 1
  let failed := env.bulkFailures.map extract_error_info
  let _docCount := gen.2
  (env.finalCount == expected_count_stream a, failed)

/-- The HTTP response of `requests.get(dataset_url, stream=True)`:
whether `raise_for_status()` passes, and the body's lines. -/
structure HttpResponse where
  statusOk : Bool
  rawLines : List RawLine
deriving DecidableEq, Repr

/-- Outcome of a full orchestrated run: aborted by the transport error of
`raise_for_status()`, or finished with the returned success flag. -/
inductive RunOutcome
  | transportError
  | finished (success : Bool)
deriving DecidableEq, Repr

/-- Number of attempts computed by `retry_ingestion_with_instruqt_logic`
(line 464): one attempt for `max_retries = 0`, else `max_retries + 1`. -/
def num_attempts (max_retries : Nat) : Nat :=
  if max_retries = 0 then 1 else max_retries + 1

/-- File write performed on terminal success or on exhaustion when failures
accumulated across attempts and the reindex flag is set (lines 488-493,
505-510, 527-531). -/
def crossAttemptWrite (a : Args) (allFailed : List FailureRecord) : List Event :=
  if allFailed ≠ [] ∧ a.instruqt_reindex_with_endpoints = true then
    [Event.writeFailureFile allFailed]
  else []

/-- The attempt loop of `retry_ingestion_with_instruqt_logic`
(lines 466-533), unfolded over the number of attempts still to run after the
current one (`left`); `attempt` is the 1-based attempt counter and
`allFailed` the accumulated `all_failed_docs`.  Each iteration recreates the
destination index (`create_properties_index`, a drop-if-exists then create),
runs `bulk_load_from_memory` on the same buffer, extends `all_failed_docs`,
and on failure either sleeps the fixed 30-second backoff before the next
attempt or, on the last attempt, writes the accumulated records (under the
reindex flag) and returns failure.  The source's generic exception handler
for backend faults outside the bulk loop is not modelled; the
`BulkIndexError` case is already handled inside `bulk_load_from_memory`. -/
def runAttempts (a : Args) (indexName : String) (data_lines : List Line)
    (envs : Nat → LoadEnv) : Nat → Nat → List FailureRecord → List Event × Bool
  | attempt, 0, allFailed =>
    let r := bulk_load_from_memory a indexName data_lines (envs attempt)
    let allFailed' := allFailed ++ r.failedDocs
    (Event.recreateIndex :: r.events ++ crossAttemptWrite a allFailed', r.success)
  | attempt, left + 1, allFailed =>
    let r := bulk_load_from_memory a indexName data_lines (envs attempt)
    let allFailed' := allFailed ++ r.failedDocs
    if r.success then
      (Event.recreateIndex :: r.events ++ crossAttemptWrite a allFailed', true)
    else
      let rest := runAttempts a indexName data_lines envs (attempt + 1) left allFailed'
      (Event.recreateIndex :: r.events ++ Event.backoff 30 :: rest.1, rest.2)

/-- Translation of `retry_ingestion_with_instruqt_logic` (lines 445-533): download once; a
failing HTTP status raises a transport error before any attempt; otherwise
materialize the non-empty lines into memory once and run the attempt loop,
every attempt consuming the same buffer. -/
def retry_ingestion_with_instruqt_logic (a : Args) (indexName url : String)
    (resp : HttpResponse) (envs : Nat → LoadEnv) (max_retries : Nat) :
    List Event × RunOutcome :=
  if resp.statusOk then
    let data_lines := materializeLines resp.rawLines
    let r := runAttempts a indexName data_lines envs 1 (num_attempts max_retries - 1) []
    (Event.download url :: r.1, .finished r.2)
  else
    ([Event.download url], .transportError)

/-- Observable actions of `instruqt_reindex_with_endpoints`. -/
inductive RxEvent
  | reindexStart (sizeLimit : Option Nat)
  | taskCheck
  | pollSleep (secs : Nat)
  | deleteProps
  | createProps
deriving DecidableEq, Repr

/-- The task-polling loop (lines 658-667 and 735-744): check the task
status; if not yet completed, sleep 5 seconds and check again.  `polls` is
the number of not-completed statuses the backend reports before completion. -/
def pollLoop : Nat → List RxEvent
  | 0 => [RxEvent.taskCheck]
  | n + 1 => RxEvent.taskCheck :: RxEvent.pollSleep 5 :: pollLoop n

/-- Backend behaviour seen by `instruqt_reindex_with_endpoints`: whether
each of the five steps raises, how many polls each reindex task needs, and
the number of documents the transform actually created -- a backend quantity
passed in so that the theorems can speak about it. -/
structure ReindexEnv where
  step1Fails : Bool
  step1Polls : Nat
  step2Fails : Bool
  step3Fails : Bool
  step4Fails : Bool
  step5Fails : Bool
  step5Polls : Nat
deriving DecidableEq, Repr

/-- Translation of `instruqt_reindex_with_endpoints` (lines 633-751): reindex `properties`
to `original-properties` and poll to completion, delete `properties`,
recreate it, delete it again, recreate it and reindex 10 documents back,
polling to completion; any step failure returns overall failure immediately.
The created-document count of either reindex task (`createdCount`) is never
read: there is no count verification and no count-based retry in this
function. -/
def instruqt_reindex_with_endpoints (env : ReindexEnv) (createdCount : Nat) :
    List RxEvent × Bool :=
  let _ := createdCount
  if env.step1Fails then ([RxEvent.reindexStart none], false)
  else
    let s1 := RxEvent.reindexStart none :: pollLoop env.step1Polls
    if env.step2Fails then (s1 ++ [RxEvent.deleteProps], false)
    else
      let s2 := s1 ++ [RxEvent.deleteProps]
      if env.step3Fails then (s2 ++ [RxEvent.createProps], false)
      else
        let s3 := s2 ++ [RxEvent.createProps]
        if env.step4Fails then (s3 ++ [RxEvent.deleteProps], false)
        else
          let s4 := s3 ++ [RxEvent.deleteProps]
          if env.step5Fails then (s4 ++ [RxEvent.createProps, RxEvent.reindexStart (some 10)], false)
          else
            (s4 ++ RxEvent.createProps :: RxEvent.reindexStart (some 10) ::
              pollLoop env.step5Polls, true)

/-! Observation predicates over events and failure records. -/

/-- Is the event an index recreation? -/
def isRecreate : Event → Bool
  | .recreateIndex => true
  | _ => false

/-- Is the event the start of a bulk load from memory? -/
def isLoadStart : Event → Bool
  | .loadFromMemory _ => true
  | _ => false

/-- Is the event a retry backoff sleep? -/
def isBackoff : Event → Bool
  | .backoff _ => true
  | _ => false

/-- Is the event a dataset download? -/
def isDownload : Event → Bool
  | .download _ => true
  | _ => false

/-- Is the event a failure-report file write? -/
def isWriteFile : Event → Bool
  | .writeFailureFile _ => true
  | _ => false

/-- Is the event a count query? -/
def isCountQuery : Event → Bool
  | .countQuery _ => true
  | _ => false

/-- The events that structure the retry loop: recreations, load starts and
backoffs. -/
def keyEv (e : Event) : Bool := isRecreate e || isLoadStart e || isBackoff e

/-- Is the record a decode-failure record tagged with line number `n`? -/
def decodeTagged (n : Nat) : FailureRecord → Bool
  | .decodeError m _ => m == n
  | .bulkError _ _ _ _ => false

/-- Is the record a decode-failure record? -/
def isDecodeRecord : FailureRecord → Bool
  | .decodeError _ _ => true
  | .bulkError _ _ _ _ => false

/-- Does the record carry a numeric line number? -/
def hasNumericLine (r : FailureRecord) : Bool :=
  match r.lineRef with
  | .num _ => true
  | .unknown => false

/-- Does the 0-based `i`-th entry of the buffer fail to decode? -/
def decodeFailsAt (ls : List Line) (i : Nat) : Bool :=
  match ls.get? i with
  | some l => l.decoded.isNone
  | none => false

/-- The last document-count reading reported in a trace. -/
def lastCountReading (evs : List Event) : Option Nat :=
  evs.foldl
    (fun acc e =>
      match e with
      | .countQuery n => some n
      | _ => acc)
    none

/-- The retry loop's structural skeleton for `k` always-failing attempts on
buffer `ls`: a recreation and a load per attempt, one 30-second backoff
strictly between consecutive attempts and none after the last. -/
def retrySkeleton (ls : List Line) : Nat → List Event
  | 0 => []
  | 1 => [Event.recreateIndex, Event.loadFromMemory ls]
  | n + 2 =>
    Event.recreateIndex :: Event.loadFromMemory ls :: Event.backoff 30 ::
      retrySkeleton ls (n + 1)

/-- Is the event a reindex-task trigger? -/
def isRxReindexStart : RxEvent → Bool
  | .reindexStart _ => true
  | _ => false

/-- Is the event a poll-loop sleep? -/
def isRxPollSleep : RxEvent → Bool
  | .pollSleep _ => true
  | _ => false

/-- Does the buffered line decode successfully? -/
def lineDecodable (l : Line) : Bool := l.decoded.isSome

/-- Is the streamed line non-empty and successfully decodable? -/
def streamDecodable : RawLine → Bool
  | .content (some _) _ => true
  | _ => false

/-! Helper lemmas about the events of a single load attempt. -/

lemma bulk_countP_isRecreate (a : Args) (idx : String) (ls : List Line) (env : LoadEnv) :
    (bulk_load_from_memory a idx ls env).events.countP isRecreate = 0 := by
  unfold bulk_load_from_memory
  rcases env.bulkException with _ | errs <;>
    simp only [] <;> split_ifs <;>
    simp [List.countP_cons, List.countP_append, isRecreate]

lemma bulk_countP_isLoadStart (a : Args) (idx : String) (ls : List Line) (env : LoadEnv) :
    (bulk_load_from_memory a idx ls env).events.countP isLoadStart = 1 := by
  unfold bulk_load_from_memory
  rcases env.bulkException with _ | errs <;>
    simp only [] <;> split_ifs <;>
    simp [List.countP_cons, List.countP_append, isLoadStart]

lemma bulk_countP_isBackoff (a : Args) (idx : String) (ls : List Line) (env : LoadEnv) :
    (bulk_load_from_memory a idx ls env).events.countP isBackoff = 0 := by
  unfold bulk_load_from_memory
  rcases env.bulkException with _ | errs <;>
    simp only [] <;> split_ifs <;>
    simp [List.countP_cons, List.countP_append, isBackoff]

lemma bulk_countP_isDownload (a : Args) (idx : String) (ls : List Line) (env : LoadEnv) :
    (bulk_load_from_memory a idx ls env).events.countP isDownload = 0 := by
  unfold bulk_load_from_memory
  rcases env.bulkException with _ | errs <;>
    simp only [] <;> split_ifs <;>
    simp [List.countP_cons, List.countP_append, isDownload]

lemma bulk_filter_keyEv (a : Args) (idx : String) (ls : List Line) (env : LoadEnv) :
    (bulk_load_from_memory a idx ls env).events.filter keyEv = [Event.loadFromMemory ls] := by
  unfold bulk_load_from_memory
  rcases env.bulkException with _ | errs <;>
    simp only [] <;> split_ifs <;>
    simp [List.filter_cons, List.filter_append, keyEv, isRecreate, isLoadStart, isBackoff]

lemma bulk_loadFromMemory_mem (a : Args) (idx : String) (ls : List Line) (env : LoadEnv)
    (l : List Line) (h : Event.loadFromMemory l ∈ (bulk_load_from_memory a idx ls env).events) :
    l = ls := by
  obtain ⟨exc, bf, fc, rc⟩ := env
  unfold bulk_load_from_memory at h
  rcases exc with _ | errs <;>
    simp only [] at h <;> split_ifs at h <;>
    simp_all

lemma crossAttemptWrite_countP (a : Args) (f : List FailureRecord) (p : Event → Bool)
    (hp : ∀ r, p (Event.writeFailureFile r) = false) :
    (crossAttemptWrite a f).countP p = 0 := by
  unfold crossAttemptWrite
  split_ifs <;> simp [List.countP_cons, hp]

lemma crossAttemptWrite_filter_keyEv (a : Args) (f : List FailureRecord) :
    (crossAttemptWrite a f).filter keyEv = [] := by
  unfold crossAttemptWrite
  split_ifs <;> simp [keyEv, isRecreate, isLoadStart, isBackoff]

lemma crossAttemptWrite_mem (a : Args) (f : List FailureRecord) (e : Event)
    (h : e ∈ crossAttemptWrite a f) : e = Event.writeFailureFile f := by
  unfold crossAttemptWrite at h
  split_ifs at h <;> simp_all

/-! Helper lemmas about the retry loop. -/

lemma num_attempts_pos (r : Nat) : 1 ≤ num_attempts r := by
  unfold num_attempts; split <;> omega

lemma runAttempts_countP_isDownload (a : Args) (idx : String) (ls : List Line)
    (envs : Nat → LoadEnv) :
    ∀ (left attempt : Nat) (allFailed : List FailureRecord),
      (runAttempts a idx ls envs attempt left allFailed).1.countP isDownload = 0 := by
  intro left
  induction left with
  | zero =>
    intro attempt allFailed
    simp only [runAttempts, List.countP_cons, List.countP_append, isDownload,
      bulk_countP_isDownload]
    rw [crossAttemptWrite_countP]
    · simp [isDownload]
    · intro r; rfl
  | succ left ih =>
    intro attempt allFailed
    simp only [runAttempts]
    split
    · simp only [List.countP_cons, List.countP_append, isDownload, bulk_countP_isDownload]
      rw [crossAttemptWrite_countP]
      · simp [isDownload]
      · intro r; rfl
    · simp only [List.countP_cons, List.countP_append, isDownload, bulk_countP_isDownload, ih]
      simp [isDownload]

lemma runAttempts_loadFromMemory_mem (a : Args) (idx : String) (ls : List Line)
    (envs : Nat → LoadEnv) :
    ∀ (left attempt : Nat) (allFailed : List FailureRecord) (l : List Line),
      Event.loadFromMemory l ∈ (runAttempts a idx ls envs attempt left allFailed).1 →
      l = ls := by
  intro left
  induction left with
  | zero =>
    intro attempt allFailed l h
    simp only [runAttempts, List.mem_cons, List.mem_append] at h
    rcases h with (h | h) | h
    · exact absurd h (by simp)
    · exact bulk_loadFromMemory_mem a idx ls (envs attempt) l h
    · exact absurd (crossAttemptWrite_mem _ _ _ h) (by simp)
  | succ left ih =>
    intro attempt allFailed l h
    simp only [runAttempts] at h
    split at h
    · simp only [List.mem_cons, List.mem_append] at h
      rcases h with (h | h) | h
      · exact absurd h (by simp)
      · exact bulk_loadFromMemory_mem a idx ls (envs attempt) l h
      · exact absurd (crossAttemptWrite_mem _ _ _ h) (by simp)
    · simp only [List.mem_cons, List.mem_append] at h
      rcases h with (h | h) | h | h
      · exact absurd h (by simp)
      · exact bulk_loadFromMemory_mem a idx ls (envs attempt) l h
      · exact absurd h (by simp)
      · exact ih attempt.succ (allFailed ++ _) l h

lemma runAttempts_allFail (a : Args) (idx : String) (ls : List Line) (envs : Nat → LoadEnv)
    (hf : ∀ n, (bulk_load_from_memory a idx ls (envs n)).success = false) :
    ∀ (left attempt : Nat) (allFailed : List FailureRecord),
      (runAttempts a idx ls envs attempt left allFailed).2 = false ∧
      (runAttempts a idx ls envs attempt left allFailed).1.countP isRecreate = left + 1 ∧
      (runAttempts a idx ls envs attempt left allFailed).1.countP isLoadStart = left + 1 ∧
      (runAttempts a idx ls envs attempt left allFailed).1.countP isBackoff = left ∧
      (runAttempts a idx ls envs attempt left allFailed).1.filter keyEv
        = retrySkeleton ls (left + 1) := by
  intro left
  induction left with
  | zero =>
    intro attempt allFailed
    refine ⟨hf attempt, ?_, ?_, ?_, ?_⟩
    · simp only [runAttempts, List.countP_cons, List.countP_append, bulk_countP_isRecreate]
      rw [crossAttemptWrite_countP _ _ _ fun r => rfl]
      simp [isRecreate]
    · simp only [runAttempts, List.countP_cons, List.countP_append, bulk_countP_isLoadStart]
      rw [crossAttemptWrite_countP _ _ _ fun r => rfl]
      simp [isLoadStart]
    · simp only [runAttempts, List.countP_cons, List.countP_append, bulk_countP_isBackoff]
      rw [crossAttemptWrite_countP _ _ _ fun r => rfl]
      simp [isBackoff]
    · simp only [runAttempts, List.filter_cons, List.filter_append, bulk_filter_keyEv,
        crossAttemptWrite_filter_keyEv]
      simp [keyEv, isRecreate, retrySkeleton]
  | succ left ih =>
    intro attempt allFailed
    have ih1 := ih (attempt + 1)
      (allFailed ++ (bulk_load_from_memory a idx ls (envs attempt)).failedDocs)
    simp only [runAttempts, hf, Bool.false_eq_true, if_false]
    refine ⟨ih1.1, ?_, ?_, ?_, ?_⟩
    · simp only [List.countP_cons, List.countP_append, bulk_countP_isRecreate, ih1.2.1]
      simp [isRecreate, isBackoff]
      try omega
    · simp only [List.countP_cons, List.countP_append, bulk_countP_isLoadStart, ih1.2.2.1]
      simp [isLoadStart, isRecreate, isBackoff]
      try omega
    · simp only [List.countP_cons, List.countP_append, bulk_countP_isBackoff, ih1.2.2.2.1]
      simp [isBackoff, isRecreate]
      try omega
    · simp only [List.filter_cons, List.filter_append, bulk_filter_keyEv, ih1.2.2.2.2]
      simp [keyEv, isRecreate, isBackoff, retrySkeleton]


/-- C2: if the retry orchestrator's computed attempt budget is `K`
(`num_attempts max_retries`, i.e. one attempt for `max_retries = 0` and
`max_retries + 1` otherwise) and every load/verify step fails, it performs
exactly `K` attempts -- never `K + 1`, never fewer -- each preceded by a
drop-and-recreate of the destination index, with a fixed 30-second backoff
strictly between consecutive attempts and none after the last, and reports
terminal failure. -/
theorem c2_retry_bound (a : Args) (idx url : String) (resp : HttpResponse)
    (envs : Nat → LoadEnv) (max_retries : Nat)
    (hok : resp.statusOk = true)
    (hfail : ∀ n,
      (bulk_load_from_memory a idx (materializeLines resp.rawLines) (envs n)).success = false) :
    (retry_ingestion_with_instruqt_logic a idx url resp envs max_retries).2
      = RunOutcome.finished false ∧
    (retry_ingestion_with_instruqt_logic a idx url resp envs max_retries).1.countP isRecreate
      = num_attempts max_retries ∧
    (retry_ingestion_with_instruqt_logic a idx url resp envs max_retries).1.countP isLoadStart
      = num_attempts max_retries ∧
    (retry_ingestion_with_instruqt_logic a idx url resp envs max_retries).1.countP isBackoff
      = num_attempts max_retries - 1 ∧
    (retry_ingestion_with_instruqt_logic a idx url resp envs max_retries).1.filter keyEv
      = retrySkeleton (materializeLines resp.rawLines) (num_attempts max_retries) := by
  have h := runAttempts_allFail a idx (materializeLines resp.rawLines) envs hfail
    (num_attempts max_retries - 1) 1 []
  have hk : num_attempts max_retries - 1 + 1 = num_attempts max_retries := by
    have := num_attempts_pos max_retries; omega
  rw [hk] at h
  simp only [retry_ingestion_with_instruqt_logic, hok, if_true]
  refine ⟨by simp [h.1], ?_, ?_, ?_, ?_⟩
  · simp [List.countP_cons, isRecreate, h.2.1]
  · simp [List.countP_cons, isLoadStart, h.2.2.1]
  · simp only [List.countP_cons, h.2.2.2.1]
    simp [isBackoff]
  · simp only [List.filter_cons, h.2.2.2.2]
    simp [keyEv, isRecreate, isLoadStart, isBackoff]

/-- Witness for `c2_retry_bound` at a concrete always-failing run with an
attempt budget of three. -/
theorem c2_retry_bound_witness :
    (retry_ingestion_with_instruqt_logic ⟨false, false, false, false, false⟩ "properties" "u"
        ⟨true, []⟩ (fun _ => ⟨none, [], 0, 0⟩) 2).2 = RunOutcome.finished false ∧
    (retry_ingestion_with_instruqt_logic ⟨false, false, false, false, false⟩ "properties" "u"
        ⟨true, []⟩ (fun _ => ⟨none, [], 0, 0⟩) 2).1.countP isRecreate = num_attempts 2 ∧
    (retry_ingestion_with_instruqt_logic ⟨false, false, false, false, false⟩ "properties" "u"
        ⟨true, []⟩ (fun _ => ⟨none, [], 0, 0⟩) 2).1.countP isLoadStart = num_attempts 2 ∧
    (retry_ingestion_with_instruqt_logic ⟨false, false, false, false, false⟩ "properties" "u"
        ⟨true, []⟩ (fun _ => ⟨none, [], 0, 0⟩) 2).1.countP isBackoff = num_attempts 2 - 1 ∧
    (retry_ingestion_with_instruqt_logic ⟨false, false, false, false, false⟩ "properties" "u"
        ⟨true, []⟩ (fun _ => ⟨none, [], 0, 0⟩) 2).1.filter keyEv
      = retrySkeleton (materializeLines []) (num_attempts 2) :=
  c2_retry_bound ⟨false, false, false, false, false⟩ "properties" "u" ⟨true, []⟩
    (fun _ => ⟨none, [], 0, 0⟩) 2 rfl (fun _ => rfl)

/-- C7: in the retry-capable mode the dataset is downloaded exactly once per
invocation, as the first action of the run, every attempt's bulk load
consumes the same materialized buffer, and a failing HTTP status aborts with
a transport error before any load attempt is performed. -/
theorem c7_download_once (a : Args) (idx url : String) (resp : HttpResponse)
    (envs : Nat → LoadEnv) (max_retries : Nat) :
    (resp.statusOk = false →
      retry_ingestion_with_instruqt_logic a idx url resp envs max_retries
        = ([Event.download url], RunOutcome.transportError)) ∧
    (resp.statusOk = true →
      (retry_ingestion_with_instruqt_logic a idx url resp envs max_retries).1.head?
        = some (Event.download url) ∧
      (retry_ingestion_with_instruqt_logic a idx url resp envs max_retries).1.countP isDownload
        = 1 ∧
      ∀ l, Event.loadFromMemory l
          ∈ (retry_ingestion_with_instruqt_logic a idx url resp envs max_retries).1 →
        l = materializeLines resp.rawLines) := by
  constructor
  · intro h
    simp [retry_ingestion_with_instruqt_logic, h]
  · intro h
    simp only [retry_ingestion_with_instruqt_logic, h, if_true]
    refine ⟨rfl, ?_, ?_⟩
    · simp [List.countP_cons, isDownload, runAttempts_countP_isDownload]
    · intro l hl
      rcases List.mem_cons.mp hl with hl | hl
      · exact absurd hl (by simp)
      · exact runAttempts_loadFromMemory_mem a idx _ envs _ 1 [] l hl

/-- Witness for `c7_download_once`: a failing status aborts with only the
download in the trace, and a passing status yields exactly one download. -/
theorem c7_download_once_witness :
    retry_ingestion_with_instruqt_logic ⟨false, false, false, false, false⟩ "properties" "u"
        ⟨false, []⟩ (fun _ => ⟨none, [], 0, 0⟩) 0
      = ([Event.download "u"], RunOutcome.transportError) ∧
    (retry_ingestion_with_instruqt_logic ⟨false, false, false, false, false⟩ "properties" "u"
        ⟨true, []⟩ (fun _ => ⟨none, [], 0, 0⟩) 0).1.countP isDownload = 1 :=
  ⟨(c7_download_once ⟨false, false, false, false, false⟩ "properties" "u" ⟨false, []⟩
      (fun _ => ⟨none, [], 0, 0⟩) 0).1 rfl,
   ((c7_download_once ⟨false, false, false, false, false⟩ "properties" "u" ⟨true, []⟩
      (fun _ => ⟨none, [], 0, 0⟩) 0).2 rfl).2.1⟩


/-- C1: a load attempt reports success exactly when the last document-count
reading of the destination equals the dataset variant's expected count, and
the declared expected counts are 500, 5000 and 48966 for the tiny, small and
full variants respectively; an attempt whose final reading differs (or that
aborted on a bulk exception, reading no count) is never reported
successful. -/
theorem c1_success_iff_expected_count (a : Args) (idx : String) (ls : List Line)
    (env : LoadEnv) :
    ((bulk_load_from_memory a idx ls env).success = true ↔
      (env.bulkException = none ∧
        lastCountReading (bulk_load_from_memory a idx ls env).events
          = some (expected_count_memory a))) ∧
    (∀ s : Bool, get_expected_document_count s true = 500) ∧
    get_expected_document_count true false = 5000 ∧
    get_expected_document_count false false = 48966 ∧
    ∀ s t : Bool, expected_count_memory ⟨false, false, false, s, t⟩
      = get_expected_document_count s t := by
  refine ⟨?_, fun s => rfl, rfl, rfl, fun s t => rfl⟩
  obtain ⟨exc, bf, fc, rc⟩ := env
  unfold bulk_load_from_memory
  rcases exc with _ | errs
  · simp only []
    split_ifs <;> simp [lastCountReading, beq_iff_eq]
  · simp only []
    split_ifs <;> simp [lastCountReading]

/-- C6: in the constrained-backend modes, a first post-settle reading that is
close but under the expected count (at least 400 and below 500) triggers
exactly one additional 20-second wait-and-recheck and one extra count query
before the decision, and the decision then depends only on the recheck
reading: a recheck reading of 500 yields success, so a close-but-under first
reading alone never causes immediate failure. -/
theorem c6_close_recheck (a : Args) (idx : String) (ls : List Line) (env : LoadEnv)
    (hc : constrainedMode a = true) (hexc : env.bulkException = none)
    (h1 : 400 ≤ env.firstCount) (h2 : env.firstCount < 500) :
    (bulk_load_from_memory a idx ls env).events.countP
        (fun e => e == Event.recheckWait 20) = 1 ∧
    (bulk_load_from_memory a idx ls env).events.countP isCountQuery = 2 ∧
    (bulk_load_from_memory a idx ls env).success = (env.recheckCount == 500) := by
  have he : expected_count_memory a = 500 := by simp [expected_count_memory, hc]
  obtain ⟨exc, bf, fc, rc⟩ := env
  simp only at hexc h1 h2
  subst hexc
  have hcond : constrainedMode a = true ∧ 400 ≤ fc ∧ fc < expected_count_memory a :=
    ⟨hc, h1, by rw [he]; exact h2⟩
  unfold bulk_load_from_memory
  simp only []
  split_ifs
  all_goals simp [List.countP_cons, isCountQuery, beq_iff_eq, he]

/-- Witness for `c6_close_recheck` at a first reading of 480 whose recheck
reads exactly 500. -/
theorem c6_close_recheck_witness :
    (bulk_load_from_memory ⟨true, false, false, false, false⟩ "properties" []
        ⟨none, [], 480, 500⟩).events.countP (fun e => e == Event.recheckWait 20) = 1 ∧
    (bulk_load_from_memory ⟨true, false, false, false, false⟩ "properties" []
        ⟨none, [], 480, 500⟩).events.countP isCountQuery = 2 ∧
    (bulk_load_from_memory ⟨true, false, false, false, false⟩ "properties" []
        ⟨none, [], 480, 500⟩).success = (500 == 500) :=
  c6_close_recheck ⟨true, false, false, false, false⟩ "properties" []
    ⟨none, [], 480, 500⟩ rfl rfl (by decide) (by decide)

/-- C10: the success decision of a load attempt depends only on the count
readings, never on the per-document submission failures recorded during the
attempt: swapping the failure list leaves the decision unchanged in both the
in-memory and the streaming path, and an attempt whose final reading matches
the expected count is reported successful however many failures were
recorded. -/
theorem c10_decision_ignores_errors (a : Args) (idx : String) (ls : List Line)
    (fails fails1 : List BulkErrorItem) (first recheck r : Nat) :
    ((bulk_load_from_memory a idx ls ⟨none, fails, first, recheck⟩).success
      = (bulk_load_from_memory a idx ls ⟨none, fails1, first, recheck⟩).success) ∧
    (bulk_load_from_memory a idx ls ⟨none, fails, expected_count_memory a, r⟩).success
      = true ∧
    ∀ (rls : List RawLine) (c : Nat),
      (download_and_parallel_bulk_load a idx rls ⟨fails, c⟩).1
        = (download_and_parallel_bulk_load a idx rls ⟨fails1, c⟩).1 := by
  refine ⟨rfl, ?_, fun rls c => rfl⟩
  simp [bulk_load_from_memory]


/-! Helper lemmas about the generators and record extraction. -/

lemma gen_tag_lt (idx : String) :
    ∀ (ls : List Line) (k m : Nat), m < k →
      (generate_actions_from_memory idx ls k).decodeFailures.countP (decodeTagged m) = 0 := by
  intro ls
  induction ls with
  | nil => intro k m _; rfl
  | cons l rest ih =>
    intro k m hm
    cases hl : l.decoded with
    | some d =>
      simp only [generate_actions_from_memory, hl]
      exact ih (k + 1) m (by omega)
    | none =>
      simp only [generate_actions_from_memory, hl, List.countP_cons]
      rw [ih (k + 1) m (by omega)]
      have hne : (k == m) = false := by
        simp only [beq_eq_false_iff_ne, ne_eq]
        omega
      simp [decodeTagged, hne]

lemma gen_tag_count (idx : String) :
    ∀ (ls : List Line) (k i : Nat),
      (generate_actions_from_memory idx ls k).decodeFailures.countP (decodeTagged (k + i))
        = if decodeFailsAt ls i then 1 else 0 := by
  intro ls
  induction ls with
  | nil => intro k i; simp [generate_actions_from_memory, decodeFailsAt]
  | cons l rest ih =>
    intro k i
    cases hl : l.decoded with
    | some d =>
      simp only [generate_actions_from_memory, hl]
      cases i with
      | zero =>
        rw [show k + 0 = k from rfl, gen_tag_lt idx rest (k + 1) k (by omega)]
        simp [decodeFailsAt, hl]
      | succ i =>
        rw [show k + (i + 1) = (k + 1) + i by omega, ih (k + 1) i]
        simp [decodeFailsAt]
    | none =>
      simp only [generate_actions_from_memory, hl, List.countP_cons]
      cases i with
      | zero =>
        rw [show k + 0 = k from rfl, gen_tag_lt idx rest (k + 1) k (by omega)]
        simp [decodeTagged, decodeFailsAt, hl]
      | succ i =>
        rw [show k + (i + 1) = (k + 1) + i by omega, ih (k + 1) i]
        have hne : (k == k + 1 + i) = false := by
          simp only [beq_eq_false_iff_ne, ne_eq]
          omega
        simp [decodeTagged, decodeFailsAt, hl, hne]

lemma gen_docCount (idx : String) :
    ∀ (ls : List Line) (k : Nat),
      (generate_actions_from_memory idx ls k).docCount = ls.countP lineDecodable := by
  intro ls
  induction ls with
  | nil => intro k; rfl
  | cons l rest ih =>
    intro k
    cases hl : l.decoded <;>
      simp [generate_actions_from_memory, hl, List.countP_cons, lineDecodable, ih (k + 1)]

lemma stream_docCount (idx : String) :
    ∀ (rls : List RawLine) (k : Nat),
      (generate_actions_stream idx rls k).2 = rls.countP streamDecodable := by
  intro rls
  induction rls with
  | nil => intro k; rfl
  | cons rl rest ih =>
    intro k
    cases rl with
    | empty => simp [generate_actions_stream, List.countP_cons, streamDecodable, ih (k + 1)]
    | content dec t =>
      cases dec <;>
        simp [generate_actions_stream, List.countP_cons, streamDecodable, ih (k + 1)]

lemma map_extract_countP_decodeTagged (items : List BulkErrorItem) (n : Nat) :
    (items.map extract_error_info).countP (decodeTagged n) = 0 := by
  induction items with
  | nil => rfl
  | cons it rest ih => simp [List.countP_cons, extract_error_info, decodeTagged, ih]

lemma map_extract_countP_isDecodeRecord (items : List BulkErrorItem) :
    (items.map extract_error_info).countP isDecodeRecord = 0 := by
  induction items with
  | nil => rfl
  | cons it rest ih => simp [List.countP_cons, extract_error_info, isDecodeRecord, ih]

lemma ebie_countP_decodeTagged (errors : List BulkIndexErrorEntry) (n : Nat) :
    (extract_bulk_index_error errors).countP (decodeTagged n) = 0 := by
  induction errors with
  | nil => rfl
  | cons e rest ih =>
    unfold extract_bulk_index_error at ih ⊢
    rw [List.filterMap_cons]
    by_cases h : e.isIndexOp = true
    · rw [if_pos h]
      simp [List.countP_cons, decodeTagged, ih]
    · rw [if_neg h]
      simpa using ih

lemma ebie_countP_hasNumericLine (errors : List BulkIndexErrorEntry) :
    (extract_bulk_index_error errors).countP hasNumericLine = 0 := by
  induction errors with
  | nil => rfl
  | cons e rest ih =>
    unfold extract_bulk_index_error at ih ⊢
    rw [List.filterMap_cons]
    by_cases h : e.isIndexOp = true
    · rw [if_pos h]
      simp [List.countP_cons, hasNumericLine, FailureRecord.lineRef, ih]
    · rw [if_neg h]
      simpa using ih


/-- C3 counterexample: in the streaming ingestion path a line that fails to
decode produces no failure record at all -- here a one-line stream whose
single line is undecodable yields an empty record list, not exactly one
record tagged with line 1. -/
theorem c3_counterexample :
    (download_and_parallel_bulk_load ⟨false, false, false, false, false⟩ "properties"
        [RawLine.content none "bad"] ⟨[], 0⟩).2 = [] ∧
    ¬ ((download_and_parallel_bulk_load ⟨false, false, false, false, false⟩ "properties"
        [RawLine.content none "bad"] ⟨[], 0⟩).2.countP (decodeTagged 1) = 1) := by
  constructor
  · rfl
  · decide

/-- C3 (amended): in the in-memory retry path every undecodable line yields
exactly one failure record tagged with its own line number and is excluded
from the submitted-document count, whatever the bulk outcomes; in the
streaming path an undecodable line is likewise excluded from the count and
decoding continues, but it is only logged: the attempt's failure records
never include a decode record there. -/
theorem c3_decode_failure_records (a : Args) (idx : String) (ls : List Line)
    (env : LoadEnv) (i : Nat) :
    (bulk_load_from_memory a idx ls env).failedDocs.countP (decodeTagged (1 + i))
      = (if decodeFailsAt ls i then 1 else 0) ∧
    (generate_actions_from_memory idx ls 1).docCount = ls.countP lineDecodable ∧
    (∀ (rls : List RawLine) (senv : StreamEnv),
      (download_and_parallel_bulk_load a idx rls senv).2.countP isDecodeRecord = 0 ∧
      (generate_actions_stream idx rls 1).2 = rls.countP streamDecodable) := by
  refine ⟨?_, gen_docCount idx ls 1, fun rls senv =>
    ⟨map_extract_countP_isDecodeRecord senv.bulkFailures, stream_docCount idx rls 1⟩⟩
  obtain ⟨exc, bf, fc, rc⟩ := env
  rcases exc with _ | errs <;>
    simp [bulk_load_from_memory, List.countP_append, gen_tag_count idx ls 1 i,
      map_extract_countP_decodeTagged, ebie_countP_decodeTagged, decodeTagged,
      extract_error_info]

/-- C5 counterexample: a run whose seven source lines all decode (so the
failing document originated from a concrete numbered line and its submitted
action carried `_line_number` 7) hits a bulk exception for that document;
exactly one failure record is produced and it carries no numeric line number
at all -- attribution to the originating line is lost. -/
theorem c5_counterexample :
    (generate_actions_from_memory "properties"
        [⟨some 0, "a"⟩, ⟨some 1, "b"⟩, ⟨some 2, "c"⟩, ⟨some 3, "d"⟩, ⟨some 4, "e"⟩,
          ⟨some 5, "f"⟩, ⟨some 6, "g"⟩] 1).actions.countP
        (fun act => act.line_number == 7) = 1 ∧
    (bulk_load_from_memory ⟨false, false, false, false, false⟩ "properties"
        [⟨some 0, "a"⟩, ⟨some 1, "b"⟩, ⟨some 2, "c"⟩, ⟨some 3, "d"⟩, ⟨some 4, "e"⟩,
          ⟨some 5, "f"⟩, ⟨some 6, "g"⟩]
        ⟨some [⟨true, ⟨some "t", some "r", some "d7", none⟩⟩], [], 0, 0⟩).failedDocs.length
      = 1 ∧
    (bulk_load_from_memory ⟨false, false, false, false, false⟩ "properties"
        [⟨some 0, "a"⟩, ⟨some 1, "b"⟩, ⟨some 2, "c"⟩, ⟨some 3, "d"⟩, ⟨some 4, "e"⟩,
          ⟨some 5, "f"⟩, ⟨some 6, "g"⟩]
        ⟨some [⟨true, ⟨some "t", some "r", some "d7", none⟩⟩], [], 0, 0⟩).failedDocs.countP
        hasNumericLine = 0 := by
  refine ⟨?_, ?_, ?_⟩ <;> decide

/-- C5 (amended): failure records for failed bulk submissions never carry
the originating source line number: records extracted from a
`BulkIndexError` always have line number `"unknown"`, and a record extracted
from an `ok = False` bulk result takes its line number from the backend's
response item (present field or the default `"unknown"`), never from the
`_line_number` metadata of the submitted action.  Only decode-failure
records are tagged with true source line numbers. -/
theorem c5_bulk_failure_line_unknown :
    (∀ errors : List BulkIndexErrorEntry,
      (extract_bulk_index_error errors).countP hasNumericLine = 0) ∧
    ∀ it : BulkErrorItem,
      (extract_error_info it).lineRef
        = (match it.lineNumber with
           | some n => LineRef.num n
           | none => LineRef.unknown) :=
  ⟨fun errors => ebie_countP_hasNumericLine errors, fun _ => rfl⟩


/-! Helper lemmas about the polling loop and the flag-gated file writes. -/

lemma pollLoop_countP_isRxReindexStart (n : Nat) :
    (pollLoop n).countP isRxReindexStart = 0 := by
  induction n with
  | zero => rfl
  | succ n ih => simp [pollLoop, List.countP_cons, isRxReindexStart, ih]

lemma pollLoop_countP_isRxPollSleep (n : Nat) :
    (pollLoop n).countP isRxPollSleep = n := by
  induction n with
  | zero => rfl
  | succ n ih => simp [pollLoop, List.countP_cons, isRxPollSleep, ih]

lemma pollLoop_countP_sleep5 (n : Nat) :
    (pollLoop n).countP (fun e => e == RxEvent.pollSleep 5) = n := by
  induction n with
  | zero => rfl
  | succ n ih => simp [pollLoop, List.countP_cons, ih]

lemma pollLoop_countP_nonfive (n : Nat) :
    (pollLoop n).countP (fun e => isRxPollSleep e && !(e == RxEvent.pollSleep 5)) = 0 := by
  induction n with
  | zero => rfl
  | succ n ih =>
    simp only [pollLoop, List.countP_cons]
    rw [ih]
    rfl

lemma crossAttemptWrite_flagFalse (a : Args) (f : List FailureRecord)
    (hf : a.instruqt_reindex_with_endpoints = false) : crossAttemptWrite a f = [] := by
  unfold crossAttemptWrite
  rw [if_neg]
  rintro ⟨-, h⟩
  rw [hf] at h
  cases h

lemma bulk_countP_isWriteFile_flagFalse (a : Args) (idx : String) (ls : List Line)
    (env : LoadEnv) (hf : a.instruqt_reindex_with_endpoints = false) :
    (bulk_load_from_memory a idx ls env).events.countP isWriteFile = 0 := by
  obtain ⟨exc, bf, fc, rc⟩ := env
  rcases exc with _ | errs <;> simp only [bulk_load_from_memory] <;> split_ifs <;>
    simp_all [List.countP_cons, List.countP_append, isWriteFile]

lemma runAttempts_countP_isWriteFile_flagFalse (a : Args) (idx : String) (ls : List Line)
    (envs : Nat → LoadEnv) (hf : a.instruqt_reindex_with_endpoints = false) :
    ∀ (left attempt : Nat) (allFailed : List FailureRecord),
      (runAttempts a idx ls envs attempt left allFailed).1.countP isWriteFile = 0 := by
  intro left
  induction left with
  | zero =>
    intro attempt allFailed
    simp only [runAttempts, List.countP_cons, List.countP_append,
      bulk_countP_isWriteFile_flagFalse a idx ls _ hf, crossAttemptWrite_flagFalse a _ hf]
    simp [isWriteFile]
  | succ left ih =>
    intro attempt allFailed
    simp only [runAttempts]
    split
    · simp only [List.countP_cons, List.countP_append,
        bulk_countP_isWriteFile_flagFalse a idx ls _ hf, crossAttemptWrite_flagFalse a _ hf]
      simp [isWriteFile]
    · simp only [List.countP_cons, List.countP_append,
        bulk_countP_isWriteFile_flagFalse a idx ls _ hf, ih]
      simp [isWriteFile]

/-- C4 counterexample: a transform run whose created-document count is 7 --
not the 500 expected for the active variant -- is reported as overall
success, triggers exactly the two scripted reindex operations (no
count-driven re-trigger, no retry, no hard failure), and behaves identically
to a run whose created count is exactly 500. -/
theorem c4_counterexample :
    (instruqt_reindex_with_endpoints ⟨false, 0, false, false, false, false, 0⟩ 7).2 = true ∧
    (instruqt_reindex_with_endpoints ⟨false, 0, false, false, false, false, 0⟩ 7).1.countP
        isRxReindexStart = 2 ∧
    instruqt_reindex_with_endpoints ⟨false, 0, false, false, false, false, 0⟩ 7
      = instruqt_reindex_with_endpoints ⟨false, 0, false, false, false, false, 0⟩ 500 := by
  refine ⟨?_, ?_, ?_⟩ <;> decide

/-- C4 (amended): the async transform runner performs no created-count
verification and no count-based delete-and-retry: its entire behaviour is
independent of the transform's created-document count, and it never triggers
more than the two scripted reindex operations. -/
theorem c4_transform_ignores_created_count (env : ReindexEnv) (c c1 : Nat) :
    instruqt_reindex_with_endpoints env c = instruqt_reindex_with_endpoints env c1 ∧
    (instruqt_reindex_with_endpoints env c).1.countP isRxReindexStart ≤ 2 := by
  refine ⟨rfl, ?_⟩
  unfold instruqt_reindex_with_endpoints
  simp only []
  split_ifs <;>
    simp [List.countP_cons, List.countP_append, isRxReindexStart,
      pollLoop_countP_isRxReindexStart]

/-- C9 counterexample: a polling loop that needs one extra status check
sleeps once between checks, and that sleep is 5 seconds -- there is no
10-second sleep anywhere in the trace, contradicting the claimed fixed
10-second poll interval. -/
theorem c9_poll_interval_counterexample :
    (instruqt_reindex_with_endpoints ⟨false, 1, false, false, false, false, 0⟩ 500).1.countP
        isRxPollSleep = 1 ∧
    (instruqt_reindex_with_endpoints ⟨false, 1, false, false, false, false, 0⟩ 500).1.countP
        (fun e => e == RxEvent.pollSleep 5) = 1 ∧
    (instruqt_reindex_with_endpoints ⟨false, 1, false, false, false, false, 0⟩ 500).1.countP
        (fun e => e == RxEvent.pollSleep 10) = 0 := by
  refine ⟨?_, ?_, ?_⟩ <;> decide

/-- C9 (amended): the task-polling loop waits a fixed 5 seconds between
consecutive status checks: every poll sleep in any run's trace is 5 seconds,
and a task needing `n` extra checks sleeps exactly `n` times. -/
theorem c9_poll_interval_five (env : ReindexEnv) (c : Nat) :
    (instruqt_reindex_with_endpoints env c).1.countP
        (fun e => isRxPollSleep e && !(e == RxEvent.pollSleep 5)) = 0 ∧
    ∀ n, (pollLoop n).countP isRxPollSleep = n ∧
      (pollLoop n).countP (fun e => e == RxEvent.pollSleep 5) = n := by
  refine ⟨?_, fun n => ⟨pollLoop_countP_isRxPollSleep n, pollLoop_countP_sleep5 n⟩⟩
  unfold instruqt_reindex_with_endpoints
  simp only []
  split_ifs <;>
    simp only [List.countP_cons, List.countP_append, pollLoop_countP_nonfive] <;>
    rfl

/-- C8 counterexample: in a two-attempt run with the reindex-with-endpoints
flag set, an attempt-1 bulk submission error causes the failure-report file
to be written already during attempt 1 -- before the backoff that precedes
the final attempt -- contradicting the claim that the file is written only
at the end of the final attempt or on overall success. -/
theorem c8_intermediate_write_counterexample :
    ((retry_ingestion_with_instruqt_logic ⟨true, false, true, false, false⟩ "properties" "u"
        ⟨true, [RawLine.content (some 0) "d"]⟩
        (fun _ => ⟨none, [⟨some "t", some "r", some "i", none⟩], 0, 0⟩) 1).1.takeWhile
        (fun e => !(isBackoff e))).countP isWriteFile = 1 ∧
    (retry_ingestion_with_instruqt_logic ⟨true, false, true, false, false⟩ "properties" "u"
        ⟨true, [RawLine.content (some 0) "d"]⟩
        (fun _ => ⟨none, [⟨some "t", some "r", some "i", none⟩], 0, 0⟩) 1).1.countP
        isBackoff = 1 := by
  refine ⟨?_, ?_⟩ <;> decide

/-- C8 (amended): the failure-report file is written only when the
reindex-with-endpoints flag requests it -- a run without the flag never
writes it -- but with the flag set it is written at the end of the load step
of any attempt that recorded bulk submission errors, including intermediate
non-final attempts, in addition to the terminal write points. -/
theorem c8_write_only_when_configured :
    (∀ (b1 b2 b4 b5 : Bool) (idx url : String) (resp : HttpResponse)
        (envs : Nat → LoadEnv) (mr : Nat),
      (retry_ingestion_with_instruqt_logic ⟨b1, b2, false, b4, b5⟩ idx url resp
          envs mr).1.countP isWriteFile = 0) ∧
    (∀ (a : Args) (idx : String) (ls : List Line) (env : LoadEnv),
      a.instruqt_reindex_with_endpoints = true → env.bulkException = none →
      env.bulkFailures ≠ [] →
      (bulk_load_from_memory a idx ls env).events.countP isWriteFile = 1) := by
  constructor
  · intro b1 b2 b4 b5 idx url resp envs mr
    unfold retry_ingestion_with_instruqt_logic
    split_ifs
    · simp [List.countP_cons, isWriteFile,
        runAttempts_countP_isWriteFile_flagFalse ⟨b1, b2, false, b4, b5⟩ idx _ envs rfl]
    · simp [isWriteFile]
  · intro a idx ls env hflag hexc hbf
    obtain ⟨exc, bf, fc, rc⟩ := env
    simp only at hexc hbf
    subst hexc
    have hlen : 0 < bf.length := List.length_pos.mpr hbf
    simp only [bulk_load_from_memory]
    split_ifs <;> simp_all [List.countP_cons, List.countP_append, isWriteFile]

/-- Witness for `c8_write_only_when_configured`: a flagless run writes
nothing; an attempt with the flag and one submission error writes exactly
once. -/
theorem c8_write_only_when_configured_witness :
    (retry_ingestion_with_instruqt_logic ⟨true, false, false, false, false⟩ "properties" "u"
        ⟨true, []⟩ (fun _ => ⟨none, [], 0, 0⟩) 0).1.countP isWriteFile = 0 ∧
    (bulk_load_from_memory ⟨true, false, true, false, false⟩ "properties" []
        ⟨none, [⟨some "t", some "r", some "i", none⟩], 0, 0⟩).events.countP isWriteFile
      = 1 :=
  ⟨c8_write_only_when_configured.1 true false false false "properties" "u" ⟨true, []⟩
      (fun _ => ⟨none, [], 0, 0⟩) 0,
   c8_write_only_when_configured.2 ⟨true, false, true, false, false⟩ "properties" []
      ⟨none, [⟨some "t", some "r", some "i", none⟩], 0, 0⟩ rfl rfl (by decide)⟩

end Ingest
